import Mathlib

/-!
Verification development for the imagen-v1 repository: a browser page
(src/index.tsx) and a server upload handler (src/api/upload.js) that build a
generation request for an external image model and relay its response.
The definitions below are shallow embeddings of the request-building,
response-scanning, HTTP-handler and download code of those two files.
-/

namespace Imagen

/-- Inline binary payload of a content part: base64 `data` plus `mimeType`,
as in the object literals built by `fileToGenerativePart` in both
src/index.tsx:56-61 and src/api/upload.js:27-32, and as read off the model
response parts (`part.inlineData.data`, `part.inlineData.mimeType`). -/
structure InlineData where
  data : String
  mimeType : String
deriving DecidableEq

/-- A loosely-typed content part: a bag that may carry an `inlineData` object
and/or a `text` string, mirroring the untyped part objects sent to and
received from the external model. -/
structure Part where
  inlineData : Option InlineData
  text : Option String
deriving DecidableEq

/-- The `{ text: ... }` part literal (src/index.tsx:208, src/api/upload.js:70). -/
def textPart (s : String) : Part := ⟨none, some s⟩

/-- The `{ inlineData: ... }` part literal (src/index.tsx:56-61,
src/api/upload.js:27-32). -/
def imagePart (d : InlineData) : Part := ⟨some d, none⟩

/-- JavaScript truthiness of `part.text` in the scan loops: present and not
the empty string. -/
def Part.textTruthy (p : Part) : Bool :=
  match p.text with
  | some s => s != ""
  | none => false

/-- The data URI assembled from a response part carrying inline data:
`data:${mimeType};base64,${data}` (src/index.tsx:225, src/api/upload.js:87). -/
def dataUri (d : InlineData) : String :=
  "data:" ++ d.mimeType ++ ";base64," ++ d.data

/-- The two accumulator variables of the response scan loops: the result
image (browser `outputImage.src` / server `generatedImage`) and the result
text (browser `outputText.textContent` / server `generatedText`), both
initially unset. -/
structure ScanState where
  image : Option String
  text : Option String
deriving DecidableEq

/-- One iteration of the response scan loop (src/index.tsx:222-232,
src/api/upload.js:84-91): `if (part.inlineData) { image = dataUri(...) }
else if (part.text) { text = part.text }`. -/
def scanStep (s : ScanState) (p : Part) : ScanState :=
  match p.inlineData with
  | some d => { s with image := some (dataUri d) }
  | none => if p.textTruthy then { s with text := p.text } else s

/-- The whole `for (const part of response.candidates[0].content.parts)`
scan, identical in the browser (src/index.tsx:221-232) and server
(src/api/upload.js:82-91) variants. -/
def scanParts (parts : List Part) : ScanState :=
  parts.foldl scanStep ⟨none, none⟩

/-- The default prompt literal (src/index.tsx:185). -/
def defaultPrompt : String :=
  "A confident-looking model in a brightly lit studio setting."

/-- Browser prompt selection `promptInput.value || default`
(src/index.tsx:185): JavaScript `||` falls through exactly when the value is
the empty string. -/
def browserUserPrompt (v : String) : String :=
  if v = "" then defaultPrompt else v

/-- The initial instruction template with the aspect ratio interpolated
(src/index.tsx:194-199, src/api/upload.js:57-62). -/
def instructionBase (ratio : String) : String :=
  "Generate a photorealistic, high-resolution e-commerce model photograph in a "
    ++ ratio
    ++ " aspect ratio.\n- **INSTRUCTIONS:**\n- The model must be wearing the exact clothing item from the product image.\n- Generate a complete, new model wearing the product.\n- The final image must look like a real photograph for a fashion website.\n- The background should be a clean, minimalist studio setting that complements the product."

/-- The pose-replication sentence appended when a pose image is supplied
(src/index.tsx:202, src/api/upload.js:65), without its leading bullet. -/
def poseSentence : String :=
  "The generated model MUST perfectly replicate the shooting angle, camera perspective, pose, body angle, and orientation from the pose reference image."

/-- The full instruction text: template, conditional pose bullet, then the
CONTEXT line with the user prompt (src/index.tsx:194-206,
src/api/upload.js:57-69). -/
def instructionText (ratio userPrompt : String) (posePart : Option Part) : String :=
  instructionBase ratio
    ++ (match posePart with
        | some _ =>
          "\n- The generated model MUST perfectly replicate the shooting angle, camera perspective, pose, body angle, and orientation from the pose reference image."
        | none => "")
    ++ ("\n- **CONTEXT:** " ++ userPrompt)

/-- The first sentence of the template with the aspect ratio interpolated,
used to state the claims about the shape of the instruction text. -/
def firstSentence (ratio : String) : String :=
  "Generate a photorealistic, high-resolution e-commerce model photograph in a "
    ++ ratio ++ " aspect ratio."

/-- The request part list: `parts = [product]`, `if (pose) parts.push(pose)`,
`parts.unshift({ text: instructionText })` (src/index.tsx:192-208,
src/api/upload.js:55-70). -/
def buildParts (productPart : Part) (posePart : Option Part)
    (ratio userPrompt : String) : List Part :=
  textPart (instructionText ratio userPrompt posePart)
    :: (match posePart with
        | some p => [productPart] ++ [p]
        | none => [productPart])

/-- A parsed uploaded file as the server sees it: the base64 payload its
FileReader would produce, its declared MIME type, and whether the reader
succeeds (`onload`) or reports an error (`onerror`). -/
structure JsFile where
  data : String
  type : String
  readable : Bool
deriving DecidableEq

/-- Embeds `fileToGenerativePart` (src/api/upload.js:19-33): resolves to an
inline-data part carrying the base64 payload and the declared MIME type, and
rejects when the FileReader reports an error. -/
def fileToGenerativePart (f : JsFile) : Except Unit Part :=
  if f.readable then .ok (imagePart ⟨f.data, f.type⟩) else .error ()

/-- The `files` object produced by formidable. Each supplied field is a
nonempty array, modelled as its first element; an absent field is `none`,
and indexing `[0]` into it throws a TypeError. -/
structure Files where
  productFile : Option JsFile
  poseFile : Option JsFile
deriving DecidableEq

/-- The `fields` object produced by formidable, same convention as `Files`. -/
structure Fields where
  userPrompt : Option String
  selectedAspectRatio : Option String
deriving DecidableEq

/-- Outcome of `form.parse`: either the error callback argument `err` is set,
or fields and files are delivered (src/api/upload.js:42-46). -/
inductive ParseOutcome where
  | failure
  | success (fields : Fields) (files : Files)
deriving DecidableEq

/-- JSON bodies the handler can send. -/
inductive Body where
  | message (s : String)
  | error (s : String)
  | result (image : String) (text : Option String)
deriving DecidableEq

/-- What the request handler does overall: send a response, or let an
exception escape the callback uncaught. -/
inductive HandlerOutcome where
  | response (status : Nat) (body : Body)
  | uncaught
deriving DecidableEq

/-- A handler run: its outcome plus an execution trace — whether the
multipart body was parsed, whether the external API was called, and the
parts passed to `ai.models.generateContent` when it was. -/
structure HandlerRun where
  outcome : HandlerOutcome
  parsedBody : Bool
  calledApi : Bool
  sentParts : Option (List Part)
deriving DecidableEq

/-- The catch-all error message shared by the browser catch
(src/index.tsx:243) and the server catch (src/api/upload.js:101). -/
def genericErrorMsg : String :=
  "An error occurred while generating the image. Please check the console for details."

/-- The missing-image error message shared by src/index.tsx:238 and
src/api/upload.js:96. -/
def noImageMsg : String :=
  "The model did not return an image. Please try adjusting your prompt or images."

/-- Embeds the default export of src/api/upload.js:35-104. The external call
is a parameter `api` (the only non-embedded effect); a success always has a
`some` image because `scanParts` only ever stores nonempty data URIs, so the
JavaScript truthiness test `if (generatedImage)` is `Option.isSome`. The
reads of `files.productFile[0]`, `fields.userPrompt[0]` and
`fields.selectedAspectRatio[0]` happen before the `try` block
(src/api/upload.js:49-52), so an absent field throws uncaught. -/
def uploadHandler (method : String) (parse : ParseOutcome)
    (api : List Part → Except Unit (List Part)) : HandlerRun :=
  if method ≠ "POST" then
    ⟨.response 405 (.message "Method Not Allowed"), false, false, none⟩
  else
    match parse with
    | .failure => ⟨.response 500 (.error "Failed to process upload."), true, false, none⟩
    | .success fields files =>
      match files.productFile with
      | none => ⟨.uncaught, true, false, none⟩
      | some productFile =>
        match fields.userPrompt with
        | none => ⟨.uncaught, true, false, none⟩
        | some userPrompt =>
          match fields.selectedAspectRatio with
          | none => ⟨.uncaught, true, false, none⟩
          | some ratio =>
            match fileToGenerativePart productFile with
            | .error _ => ⟨.response 500 (.error genericErrorMsg), true, false, none⟩
            | .ok productPart =>
              match (match files.poseFile with
                     | none => Except.ok none
                     | some g => (fileToGenerativePart g).map some) with
              | .error _ => ⟨.response 500 (.error genericErrorMsg), true, false, none⟩
              | .ok posePart =>
                let parts := buildParts productPart posePart ratio userPrompt
                match api parts with
                | .error _ =>
                  ⟨.response 500 (.error genericErrorMsg), true, true, some parts⟩
                | .ok resp =>
                  match (scanParts resp).image with
                  | some img =>
                    ⟨.response 200 (.result img (scanParts resp).text), true, true, some parts⟩
                  | none =>
                    ⟨.response 500 (.error noImageMsg), true, true, some parts⟩

/-- Embeds the second handler variant in src/api/upload.js:112-137 (the stub
that only logs the parsed form): same method gate and parse-error path, then
a fixed 200 message; it never contacts the external API. -/
def uploadHandlerStub (method : String) (parse : ParseOutcome) : HandlerRun :=
  if method ≠ "POST" then
    ⟨.response 405 (.message "Method Not Allowed"), false, false, none⟩
  else
    match parse with
    | .failure => ⟨.response 500 (.error "Failed to process upload."), true, false, none⟩
    | .success _ _ =>
      ⟨.response 200 (.message "File uploaded and command executed successfully!"), true, false, none⟩

/-- Observable outcome of the browser generate flow. -/
inductive BrowserOutcome where
  | blockedNoProduct
  | success (imageSrc : String) (text : Option String)
  | errorShown (msg : String)
deriving DecidableEq

/-- A browser generate run: outcome plus the parts sent to
`ai.models.generateContent`, when the call was reached. -/
structure BrowserRun where
  outcome : BrowserOutcome
  sentParts : Option (List Part)
deriving DecidableEq

/-- Embeds `generateImage` (src/index.tsx:179-247). `productPart` and
`posePart` are the module-level state set by the file-change handlers;
`promptValue` is `promptInput.value`; the external call is the parameter
`api`, whose thrown errors the surrounding `try` converts to the generic
error display; a missing image after the scan shows the no-image error. -/
def generateImage (productPart posePart : Option Part)
    (promptValue ratio : String)
    (api : List Part → Except Unit (List Part)) : BrowserRun :=
  match productPart with
  | none => ⟨.blockedNoProduct, none⟩
  | some prod =>
    let parts := buildParts prod posePart ratio (browserUserPrompt promptValue)
    let outcome : BrowserOutcome :=
      match api parts with
      | .error _ => .errorShown genericErrorMsg
      | .ok resp =>
        match (scanParts resp).image with
        | some img => .success img (scanParts resp).text
        | none => .errorShown noImageMsg
    ⟨outcome, some parts⟩

/-- `needle` occurs somewhere inside `hay`, stated on the character lists. -/
def Appears (needle hay : String) : Prop :=
  needle.data <:+: hay.data

/-- Erases the `text` field of parts that carry inline data; used to state
that the scan never reads the text of such a part. -/
def stripInlineText (p : Part) : Part :=
  match p.inlineData with
  | some _ => { p with text := none }
  | none => p

/-- An RGBA pixel with 0-255 channels. -/
structure RGBA where
  r : Nat
  g : Nat
  b : Nat
  a : Nat
deriving DecidableEq

/-- The opaque white `#FFFFFF` used by `ctx.fillStyle` (src/index.tsx:153). -/
def white : RGBA := ⟨255, 255, 255, 255⟩

/-- The transparent black every fresh canvas pixel starts as. -/
def transparent : RGBA := ⟨0, 0, 0, 0⟩

/-- A fresh canvas pixel (the canvas created at src/index.tsx:141). -/
def freshCanvasPixel : RGBA := transparent

/-- Per-pixel source-over compositing on 0-255 channels, the default canvas
operation used by `fillRect` and `drawImage`: premultiplied blend, then
unpremultiply (0 when the result is fully transparent). -/
def over (src dst : RGBA) : RGBA :=
  let outA := src.a + dst.a * (255 - src.a) / 255
  let blend := fun (sc dc : Nat) =>
    if outA = 0 then 0
    else (sc * src.a / 255 + dc * dst.a / 255 * (255 - src.a) / 255) * 255 / outA
  ⟨blend src.r dst.r, blend src.g dst.g, blend src.b dst.b, outA⟩

/-- The two export formats offered by the format select (src/index.tsx:137). -/
inductive ExportFormat where
  | png
  | jpeg
deriving DecidableEq

/-- Canvas pixel just before `drawImage`: for jpeg the canvas was filled with
opaque white (src/index.tsx:152-155), for png it is untouched. -/
def canvasBeforeDraw (format : ExportFormat) : RGBA :=
  match format with
  | .jpeg => over white freshCanvasPixel
  | .png => freshCanvasPixel

/-- Canvas pixel after `ctx.drawImage(img, 0, 0)` (src/index.tsx:157). -/
def canvasAfterDraw (format : ExportFormat) (imgPixel : RGBA) : RGBA :=
  over imgPixel (canvasBeforeDraw format)

/-- `canvas.toDataURL(mimeType, 1.0)` (src/index.tsx:163): JPEG has no alpha
channel, so encoding discards alpha; PNG keeps the pixel as is. -/
def encodePixel (format : ExportFormat) (p : RGBA) : RGBA :=
  match format with
  | .jpeg => ⟨p.r, p.g, p.b, 255⟩
  | .png => p

/-- The pixel the downloaded file holds for a given displayed-image pixel
(`handleDownload`, src/index.tsx:131-175). -/
def exportPixel (format : ExportFormat) (imgPixel : RGBA) : RGBA :=
  encodePixel format (canvasAfterDraw format imgPixel)

/-! Helper lemmas. -/

theorem string_data_append (s t : String) : (s ++ t).data = s.data ++ t.data := by
  cases s
  cases t
  rfl

theorem string_eq_of_data (s t : String) (h : s.data = t.data) : s = t := by
  cases s
  cases t
  exact congrArg String.mk h

theorem string_data_empty : ("" : String).data = [] := rfl

theorem string_append_empty (s : String) : s ++ "" = s := by
  apply string_eq_of_data
  simp [string_data_append, string_data_empty]

theorem string_append_assoc (a b c : String) : a ++ b ++ c = a ++ (b ++ c) := by
  apply string_eq_of_data
  simp [string_data_append, List.append_assoc]

theorem scanStep_image_of_noInline {s : ScanState} {p : Part}
    (h : p.inlineData = none) : (scanStep s p).image = s.image := by
  simp only [scanStep, h]
  split <;> rfl

theorem scan_foldl_image_none (l : List Part) :
    ∀ s : ScanState, (∀ p ∈ l, p.inlineData = none) →
      (l.foldl scanStep s).image = s.image := by
  induction l with
  | nil => intro s _; rfl
  | cons p t ih =>
    intro s h
    have hp : p.inlineData = none := h p (by simp)
    have ht : ∀ q ∈ t, q.inlineData = none := fun q hq => h q (by simp [hq])
    simp only [List.foldl_cons]
    rw [ih (scanStep s p) ht, scanStep_image_of_noInline hp]

theorem scan_foldl_strip (l : List Part) :
    ∀ s : ScanState, l.foldl scanStep s = (l.map stripInlineText).foldl scanStep s := by
  induction l with
  | nil => intro _; rfl
  | cons p t ih =>
    intro s
    have hstep : scanStep s (stripInlineText p) = scanStep s p := by
      cases hp : p.inlineData with
      | some d => simp [stripInlineText, scanStep, hp]
      | none => simp [stripInlineText, hp]
    simp only [List.map_cons, List.foldl_cons, hstep]
    exact ih (scanStep s p)

/-! Theorems for the claims. -/

/-- C3: in both variants the built request part list is
`[instruction-text, product-image]` without a pose image and exactly
`[instruction-text, product-image, pose-image]` (three parts, pose last)
with one. -/
theorem request_parts_order (prod pp : Part) (ratio uP : String) :
    buildParts prod (some pp) ratio uP
        = [textPart (instructionText ratio uP (some pp)), prod, pp]
      ∧ (buildParts prod (some pp) ratio uP).length = 3
      ∧ buildParts prod none ratio uP
          = [textPart (instructionText ratio uP none), prod] :=
  ⟨rfl, rfl, rfl⟩

/-- C5: for every prompt P, aspect ratio R and optional pose part, the
instruction text is the fixed first sentence with R interpolated, followed by
some middle text, followed by the trailing CONTEXT sentence carrying P
verbatim. -/
theorem instruction_text_shape (P R : String) (posePart : Option Part) :
    ∃ mid, instructionText R P posePart
      = firstSentence R ++ (mid ++ ("\n- **CONTEXT:** " ++ P)) := by
  have hsplit : (" aspect ratio.\n- **INSTRUCTIONS:**\n- The model must be wearing the exact clothing item from the product image.\n- Generate a complete, new model wearing the product.\n- The final image must look like a real photograph for a fashion website.\n- The background should be a clean, minimalist studio setting that complements the product." : String)
      = " aspect ratio."
        ++ "\n- **INSTRUCTIONS:**\n- The model must be wearing the exact clothing item from the product image.\n- Generate a complete, new model wearing the product.\n- The final image must look like a real photograph for a fashion website.\n- The background should be a clean, minimalist studio setting that complements the product." := rfl
  cases posePart with
  | none =>
    refine ⟨"\n- **INSTRUCTIONS:**\n- The model must be wearing the exact clothing item from the product image.\n- Generate a complete, new model wearing the product.\n- The final image must look like a real photograph for a fashion website.\n- The background should be a clean, minimalist studio setting that complements the product.", ?_⟩
    simp only [instructionText, instructionBase, firstSentence]
    rw [hsplit]
    simp only [string_append_empty, string_append_assoc]
  | some pp =>
    refine ⟨"\n- **INSTRUCTIONS:**\n- The model must be wearing the exact clothing item from the product image.\n- Generate a complete, new model wearing the product.\n- The final image must look like a real photograph for a fashion website.\n- The background should be a clean, minimalist studio setting that complements the product."
      ++ "\n- The generated model MUST perfectly replicate the shooting angle, camera perspective, pose, body angle, and orientation from the pose reference image.", ?_⟩
    simp only [instructionText, instructionBase, firstSentence]
    rw [hsplit]
    simp only [string_append_assoc]

/-- C1 (amended): the scan loop overwrites the result image on every part
carrying inline data, so the result image is the data URI of the LAST such
part — `none` when there is none. -/
theorem relay_uses_last_inline (parts : List Part) :
    (scanParts parts).image
      = (parts.reverse.find? fun p => p.inlineData.isSome).bind
          (fun p => p.inlineData.map dataUri) := by
  induction parts using List.reverseRecOn with
  | nil => rfl
  | append_singleton l p ih =>
    rw [List.reverse_append]
    unfold scanParts at *
    rw [List.foldl_append]
    cases hp : p.inlineData with
    | some d =>
      simp [scanStep, hp, List.find?]
    | none =>
      have himg := scanStep_image_of_noInline
        (s := l.foldl scanStep ⟨none, none⟩) hp
      simp [List.find?, hp, himg, ih]

/-- C1 (counterexample): with two inline-data parts in the response, the
first inline part is the png one, yet the relay reports the data URI of the
second (jpeg) part, which differs from the first part's data URI. -/
theorem relay_first_inline_cex :
    (List.find? (fun p => p.inlineData.isSome)
        [imagePart ⟨"QUFB", "image/png"⟩, imagePart ⟨"QkJC", "image/jpeg"⟩])
      = some (imagePart ⟨"QUFB", "image/png"⟩)
    ∧ (scanParts
        [imagePart ⟨"QUFB", "image/png"⟩, imagePart ⟨"QkJC", "image/jpeg"⟩]).image
        = some "data:image/jpeg;base64,QkJC"
    ∧ ("data:image/jpeg;base64,QkJC" : String) ≠ dataUri ⟨"QUFB", "image/png"⟩ := by
  refine ⟨rfl, rfl, ?_⟩
  decide

/-- C2: when the model response contains no part with inline binary data,
the operation fails regardless of any text parts: the server responds 500
with the no-image error message and the browser shows the same error,
never a text-only success. -/
theorem no_inline_data_is_failure
    (pf : JsFile) (uP aR : String) (resp : List Part)
    (prod : Part) (pose : Option Part) (pv : String)
    (hpf : pf.readable = true)
    (hresp : ∀ p ∈ resp, p.inlineData = none) :
    (uploadHandler "POST" (.success ⟨some uP, some aR⟩ ⟨some pf, none⟩)
        (fun _ => .ok resp)).outcome
      = .response 500 (.error noImageMsg)
    ∧ (generateImage (some prod) pose pv aR (fun _ => .ok resp)).outcome
      = .errorShown noImageMsg := by
  have himg : (scanParts resp).image = none :=
    scan_foldl_image_none resp ⟨none, none⟩ hresp
  constructor
  · simp [uploadHandler, fileToGenerativePart, hpf, scanParts] at himg ⊢
    simp [himg]
  · simp [generateImage, scanParts] at himg ⊢
    simp [himg]

/-- C2 witness: a concrete text-only response makes both variants fail. -/
theorem no_inline_data_is_failure_witness :
    ((⟨"QUJD", "image/png", true⟩ : JsFile).readable = true
      ∧ ∀ p ∈ [textPart "no image"], p.inlineData = none)
    ∧ (uploadHandler "POST"
          (.success ⟨some "hi", some "1:1"⟩ ⟨some ⟨"QUJD", "image/png", true⟩, none⟩)
          (fun _ => .ok [textPart "no image"])).outcome
        = .response 500 (.error noImageMsg)
    ∧ (generateImage (some (imagePart ⟨"QUJD", "image/png"⟩)) none "hi" "1:1"
          (fun _ => .ok [textPart "no image"])).outcome
        = .errorShown noImageMsg :=
  ⟨⟨rfl, by decide⟩,
    no_inline_data_is_failure ⟨"QUJD", "image/png", true⟩ "hi" "1:1"
      [textPart "no image"] (imagePart ⟨"QUJD", "image/png"⟩) none "hi" rfl
      (by decide)⟩

/-- C4 (counterexample): with no pose file but a user prompt that happens to
contain the pose-replication sentence, the sentence still appears in the
instruction text, refuting the claimed only-if direction. -/
theorem pose_sentence_cex :
    Appears poseSentence (instructionText "1:1" poseSentence none) := by
  refine ⟨((instructionBase "1:1" ++ "") ++ "\n- **CONTEXT:** ").data, [], ?_⟩
  simp only [instructionText, string_data_append, string_data_empty,
    List.append_assoc, List.append_nil, List.nil_append]

/-- C4 (amended): the builder appends the pose sentence exactly when a pose
part is supplied — with a pose the sentence appears in the instruction text
and the pose part is in the part list; without a pose the instruction text is
exactly the base template plus the CONTEXT line (no sentence appended, though
the user prompt itself may still contain it) and the part list is exactly
instruction text plus product. -/
theorem pose_sentence_appended_iff (aR uP : String) (prod pp : Part) :
    Appears poseSentence (instructionText aR uP (some pp))
    ∧ instructionText aR uP none
        = instructionBase aR ++ ("\n- **CONTEXT:** " ++ uP)
    ∧ pp ∈ buildParts prod (some pp) aR uP
    ∧ buildParts prod none aR uP
        = [textPart (instructionText aR uP none), prod] := by
  have hlit : ("\n- The generated model MUST perfectly replicate the shooting angle, camera perspective, pose, body angle, and orientation from the pose reference image." : String)
      = "\n- " ++ poseSentence := rfl
  refine ⟨?_, ?_, ?_, rfl⟩
  · refine ⟨(instructionBase aR ++ "\n- ").data,
      ("\n- **CONTEXT:** " ++ uP).data, ?_⟩
    simp only [instructionText]
    rw [hlit]
    simp only [string_data_append, List.append_assoc]
  · simp only [instructionText]
    rw [string_append_empty]
  · simp [buildParts]

set_option maxRecDepth 8000 in
/-- C6 (counterexample): the server relay applies no default to an empty
prompt — the parts it sends to the external API are built from the empty
prompt and differ from the parts built from the default prompt. -/
theorem server_empty_prompt_cex :
    (uploadHandler "POST"
        (.success ⟨some "", some "1:1"⟩ ⟨some ⟨"UFBQ", "image/png", true⟩, none⟩)
        (fun _ => .ok [imagePart ⟨"QkJC", "image/png"⟩])).sentParts
      = some (buildParts (imagePart ⟨"UFBQ", "image/png"⟩) none "1:1" "")
    ∧ buildParts (imagePart ⟨"UFBQ", "image/png"⟩) none "1:1" ""
        ≠ buildParts (imagePart ⟨"UFBQ", "image/png"⟩) none "1:1" defaultPrompt :=
  ⟨rfl, by decide⟩

/-- C6 (amended): the browser variant substitutes the default prompt for an
empty prompt: with an empty prompt value the parts it sends to the external
API are exactly those built from the default prompt (the server variant
forwards the prompt as received, see the counterexample). -/
theorem empty_prompt_browser_default (prod : Part) (pose : Option Part)
    (R : String) (api : List Part → Except Unit (List Part)) :
    (generateImage (some prod) pose "" R api).sentParts
      = some (buildParts prod pose R defaultPrompt) := rfl

/-- C10: a response part carrying both inline data and text contributes only
its inline data: erasing the text of every inline-data part does not change
the scan result, and a scan step on such a part sets the candidate image to
its data URI while leaving the result text untouched. -/
theorem inline_part_text_never_used :
    (∀ parts : List Part, scanParts parts = scanParts (parts.map stripInlineText))
    ∧ ∀ (s : ScanState) (p : Part) (d : InlineData),
        p.inlineData = some d → scanStep s p = ⟨some (dataUri d), s.text⟩ := by
  constructor
  · intro parts
    exact scan_foldl_strip parts ⟨none, none⟩
  · intro s p d h
    cases s
    simp [scanStep, h]

/-- C10 witness: a concrete part carrying both inline data and a caption. -/
theorem inline_part_text_never_used_witness :
    scanParts [(⟨some ⟨"QQ", "image/png"⟩, some "caption"⟩ : Part)]
      = scanParts ([(⟨some ⟨"QQ", "image/png"⟩, some "caption"⟩ : Part)].map stripInlineText)
    ∧ ((⟨some ⟨"QQ", "image/png"⟩, some "caption"⟩ : Part).inlineData
        = some ⟨"QQ", "image/png"⟩)
    ∧ scanStep ⟨none, some "prior"⟩ ⟨some ⟨"QQ", "image/png"⟩, some "caption"⟩
        = ⟨some (dataUri ⟨"QQ", "image/png"⟩), some "prior"⟩ :=
  ⟨inline_part_text_never_used.1 [⟨some ⟨"QQ", "image/png"⟩, some "caption"⟩],
    rfl,
    inline_part_text_never_used.2 ⟨none, some "prior"⟩
      ⟨some ⟨"QQ", "image/png"⟩, some "caption"⟩ ⟨"QQ", "image/png"⟩ rfl⟩

/-- C7 (counterexample): a POST whose multipart body parses but carries no
`productFile` field makes the handler read `files.productFile[0]` outside the
try block, so the TypeError escapes uncaught instead of becoming a
user-facing error response. -/
theorem missing_product_field_uncaught_cex :
    (uploadHandler "POST" (.success ⟨some "hi", some "1:1"⟩ ⟨none, none⟩)
        (fun _ => .ok [])).outcome = .uncaught := rfl

/-- C7 (amended): every failure of an operation that can fail is caught at
its boundary and converted to one of the defined user-facing messages — when
the parsed body carries the product file, prompt and aspect-ratio fields,
the server handler always answers with one of its three defined bodies
(generic 500 error, no-image 500 error, or a 200 result); a form-parse
failure gets the defined parse-error 500; and the browser generate flow
converts a throwing external call to the generic error display. The
exception the claim misses: the server reads the three parsed fields before
the try block, so a parsed body missing the product file, the prompt, or the
aspect-ratio field escapes as an uncaught exception. -/
theorem failures_caught_when_fields_present
    (fields : Fields) (files : Files)
    (api : List Part → Except Unit (List Part))
    (h1 : files.productFile.isSome = true)
    (h2 : fields.userPrompt.isSome = true)
    (h3 : fields.selectedAspectRatio.isSome = true) :
    ((uploadHandler "POST" (.success fields files) api).outcome
          = .response 500 (.error genericErrorMsg)
      ∨ (uploadHandler "POST" (.success fields files) api).outcome
          = .response 500 (.error noImageMsg)
      ∨ ∃ img txt, (uploadHandler "POST" (.success fields files) api).outcome
          = .response 200 (.result img txt))
    ∧ (∀ api2 : List Part → Except Unit (List Part),
        (uploadHandler "POST" .failure api2).outcome
          = .response 500 (.error "Failed to process upload."))
    ∧ (∀ (prod : Part) (pose : Option Part) (pv r : String)
        (api2 : List Part → Except Unit (List Part)) (e : Unit),
        api2 (buildParts prod pose r (browserUserPrompt pv)) = .error e →
          (generateImage (some prod) pose pv r api2).outcome
            = .errorShown genericErrorMsg)
    ∧ ∀ (fields2 : Fields) (files2 : Files)
        (api2 : List Part → Except Unit (List Part)),
        (files2.productFile = none ∨ fields2.userPrompt = none
          ∨ fields2.selectedAspectRatio = none) →
          (uploadHandler "POST" (.success fields2 files2) api2).outcome
            = .uncaught := by
  obtain ⟨pf, hpf⟩ := Option.isSome_iff_exists.mp h1
  obtain ⟨up, hup⟩ := Option.isSome_iff_exists.mp h2
  obtain ⟨ar, har⟩ := Option.isSome_iff_exists.mp h3
  refine ⟨?_, fun api2 => rfl, ?_, ?_⟩
  · simp only [uploadHandler, hpf, hup, har]
    rw [if_neg (by simp : ¬ (("POST" : String) ≠ "POST"))]
    cases hconv : fileToGenerativePart pf with
    | error e => exact .inl rfl
    | ok productPart =>
      dsimp only
      cases hpose : (match files.poseFile with
          | none => Except.ok none
          | some g => (fileToGenerativePart g).map some) with
      | error e => exact .inl rfl
      | ok posePart =>
        dsimp only
        cases hapi : api (buildParts productPart posePart ar up) with
        | error e => exact .inl rfl
        | ok resp =>
          dsimp only
          cases himg : (scanParts resp).image with
          | some img => exact .inr (.inr ⟨img, (scanParts resp).text, rfl⟩)
          | none => exact .inr (.inl rfl)
  · intro prod pose pv r api2 e h
    simp [generateImage, h]
  · intro fields2 files2 api2 h
    rcases h with h | h | h
    · simp [uploadHandler, h]
    · cases hpf2 : files2.productFile with
      | none => simp [uploadHandler, hpf2]
      | some pf2 => simp [uploadHandler, hpf2, h]
    · cases hpf2 : files2.productFile with
      | none => simp [uploadHandler, hpf2]
      | some pf2 =>
        cases hup2 : fields2.userPrompt with
        | none => simp [uploadHandler, hpf2, hup2]
        | some up2 => simp [uploadHandler, hpf2, hup2, h]

/-- C7 witness: concrete parsed fields with every required field present,
and the conclusion instantiated there. -/
theorem failures_caught_when_fields_present_witness :
    ((⟨some ⟨"QUJD", "image/png", true⟩, none⟩ : Files).productFile.isSome = true
      ∧ (⟨some "hi", some "1:1"⟩ : Fields).userPrompt.isSome = true
      ∧ (⟨some "hi", some "1:1"⟩ : Fields).selectedAspectRatio.isSome = true)
    ∧ (((uploadHandler "POST"
            (.success ⟨some "hi", some "1:1"⟩ ⟨some ⟨"QUJD", "image/png", true⟩, none⟩)
            (fun _ => .ok [])).outcome
          = .response 500 (.error genericErrorMsg)
        ∨ (uploadHandler "POST"
            (.success ⟨some "hi", some "1:1"⟩ ⟨some ⟨"QUJD", "image/png", true⟩, none⟩)
            (fun _ => .ok [])).outcome
          = .response 500 (.error noImageMsg)
        ∨ ∃ img txt, (uploadHandler "POST"
            (.success ⟨some "hi", some "1:1"⟩ ⟨some ⟨"QUJD", "image/png", true⟩, none⟩)
            (fun _ => .ok [])).outcome
          = .response 200 (.result img txt))
      ∧ (∀ api2 : List Part → Except Unit (List Part),
          (uploadHandler "POST" .failure api2).outcome
            = .response 500 (.error "Failed to process upload."))
      ∧ (∀ (prod : Part) (pose : Option Part) (pv r : String)
          (api2 : List Part → Except Unit (List Part)) (e : Unit),
          api2 (buildParts prod pose r (browserUserPrompt pv)) = .error e →
            (generateImage (some prod) pose pv r api2).outcome
              = .errorShown genericErrorMsg)
      ∧ ∀ (fields2 : Fields) (files2 : Files)
          (api2 : List Part → Except Unit (List Part)),
          (files2.productFile = none ∨ fields2.userPrompt = none
            ∨ fields2.selectedAspectRatio = none) →
            (uploadHandler "POST" (.success fields2 files2) api2).outcome
              = .uncaught) :=
  ⟨⟨rfl, rfl, rfl⟩,
    failures_caught_when_fields_present ⟨some "hi", some "1:1"⟩
      ⟨some ⟨"QUJD", "image/png", true⟩, none⟩ (fun _ => .ok []) rfl rfl rfl⟩

/-- C8: both handler variants answer any non-POST request with status 405
and the `Method Not Allowed` message body, without parsing the multipart
body and without calling the external API (the trace flags are false and no
parts are sent). -/
theorem non_post_rejected (method : String) (parse : ParseOutcome)
    (api : List Part → Except Unit (List Part)) (h : method ≠ "POST") :
    uploadHandler method parse api
        = ⟨.response 405 (.message "Method Not Allowed"), false, false, none⟩
      ∧ uploadHandlerStub method parse
        = ⟨.response 405 (.message "Method Not Allowed"), false, false, none⟩ := by
  constructor
  · unfold uploadHandler
    rw [if_pos h]
  · unfold uploadHandlerStub
    rw [if_pos h]

/-- C8 witness: a concrete GET request. -/
theorem non_post_rejected_witness :
    (("GET" : String) ≠ "POST")
    ∧ uploadHandler "GET" .failure (fun _ => .ok [])
        = ⟨.response 405 (.message "Method Not Allowed"), false, false, none⟩
    ∧ uploadHandlerStub "GET" .failure
        = ⟨.response 405 (.message "Method Not Allowed"), false, false, none⟩ :=
  ⟨by decide,
    (non_post_rejected "GET" .failure (fun _ => .ok []) (by decide)).1,
    (non_post_rejected "GET" .failure (fun _ => .ok []) (by decide)).2⟩

/-- C9: for a displayed-image pixel that is fully transparent, the jpeg
download path (which fills the canvas with opaque white before compositing)
exports opaque white; the png path performs no fill, its canvas before the
draw is still transparent; and without the fill the jpeg encoding of that
pixel would have been opaque black. -/
theorem jpeg_fill_white (p : RGBA) (h : p.a = 0) :
    exportPixel .jpeg p = white
    ∧ canvasBeforeDraw .png = transparent
    ∧ encodePixel .jpeg (over p freshCanvasPixel) = (⟨0, 0, 0, 255⟩ : RGBA) := by
  refine ⟨?_, rfl, ?_⟩
  · have hW : canvasBeforeDraw .jpeg = white := by decide
    simp [exportPixel, canvasAfterDraw, hW, over, white, encodePixel, h]
  · simp [encodePixel, over, freshCanvasPixel, transparent, h]

/-- C9 witness: a concrete fully transparent pixel. -/
theorem jpeg_fill_white_witness :
    ((⟨12, 34, 56, 0⟩ : RGBA).a = 0)
    ∧ (exportPixel .jpeg ⟨12, 34, 56, 0⟩ = white
      ∧ canvasBeforeDraw .png = transparent
      ∧ encodePixel .jpeg (over ⟨12, 34, 56, 0⟩ freshCanvasPixel)
          = (⟨0, 0, 0, 255⟩ : RGBA)) :=
  ⟨rfl, jpeg_fill_white ⟨12, 34, 56, 0⟩ rfl⟩

end Imagen
